import Mathlib

/-!
Shallow embedding of `recovery-persist.cpp` (Evolution-X-AOSP/bootable_recovery).

The filesystem is modelled as a partial map from paths to `File`s; a `File`
carries its byte content and a flag saying whether streaming reads from it
succeed.  `access(R_OK)` failure (missing or unreadable file) is modelled by
the map returning `none`.  Write/open-for-write failures are modelled by a
per-path oracle `writeOk`.  The process-global `rotated` flag, the internal
once-guard of the rotation primitive, and a counter of performed rotations
are threaded through a `PState`.

The `compare_file` loop is embedded faithfully to the source: `bytes_remain`
is never decremented inside the loop, so every iteration re-reads
`min(bytes_remain, 16 KiB)` at the advancing file offsets; for nonempty files
the read past end-of-file eventually fails and the function returns false.
-/

namespace RecoveryPersist

/-- Observable state of one file: its bytes, and whether streaming reads
(`fread` / `android::base::ReadFully`) from it succeed. -/
structure File where
  content : List Nat
  readOk : Bool
  deriving DecidableEq

/-- A filesystem: paths to files; `none` means absent or unreadable
(`access(path, R_OK) != 0`). -/
abbrev FS := String → Option File

def LAST_LOG_FILE : String := "/data/misc/recovery/last_log"

def LAST_PMSG_FILE : String := "/sys/fs/pstore/pmsg-ramoops-0"

def LAST_KMSG_FILE : String := "/data/misc/recovery/last_kmsg"

def LAST_CONSOLE_FILE : String := "/sys/fs/pstore/console-ramoops-0"

def ALT_LAST_CONSOLE_FILE : String := "/sys/fs/pstore/console-ramoops"

/-- Paths of the `last_install` files (from the `recovery_utils` headers). -/
def LAST_INSTALL_FILE_IN_CACHE : String := "/cache/recovery/last_install"

def LAST_INSTALL_FILE : String := "/data/misc/recovery/last_install"

/-- `file_exists`: `access(filename, R_OK) == 0`. -/
def file_exists (fs : FS) (p : String) : Bool :=
  (fs p).isSome

/-- `file_size`: `stat` size, `0` if `stat` fails (file absent). -/
def file_size (fs : FS) (p : String) : Nat :=
  match fs p with
  | none => 0
  | some f => f.content.length

/-- `android::base::ReadFileToString` as used in `logsave`: the output string
is cleared first, so a missing/unreadable file or a failed read yields the
empty content; the boolean result is ignored by the caller. -/
def readContent (fs : FS) (p : String) : List Nat :=
  match fs p with
  | none => []
  | some f => if f.readOk then f.content else []

def setFile (fs : FS) (p : String) (f : File) : FS :=
  fun q => if q = p then some f else fs q

def removeFile (fs : FS) (p : String) : FS :=
  fun q => if q = p then none else fs q

def moveFile (fs : FS) (src dst : String) : FS :=
  match fs src with
  | none => fs
  | some f => removeFile (setFile fs dst f) src

/-- `android::base::WriteStringToFile`: returns whether the write succeeded
(modelled by the per-path oracle), and the updated filesystem. -/
def writeStringToFile (fs : FS) (wOk : String → Bool) (p : String) (content : List Nat) :
    Bool × FS :=
  if wOk p then (true, setFile fs p ⟨content, true⟩) else (false, fs)

/-- Destination path computed by `logsave`: `"/data/misc/" + filename`. -/
def destPath (filename : String) : String :=
  "/data/misc/" ++ filename

/-- Process state threaded through the run: the filesystem, the write-success
oracle, the global `rotated` flag of recovery-persist.cpp, the internal
once-guard of `rotate_logs` (`logsRotated`), and a counter of performed
rotations. -/
structure PState where
  fs : FS
  writeOk : String → Bool
  rotated : Bool
  logsRotated : Bool
  rotations : Nat

/-- Modelled from the spec: `rotate_logs` lives in `recovery_utils/logging.cpp`,
which is not among the verified sources.  The spec's Rotation Primitive is
"idempotent per process run via the rotated flag: when invoked and rotated is
false, performs the log-rotation side effect and sets the flag; when invoked
again in the same run, it is a no-op" — the real implementation guards with an
internal static flag, modelled as `logsRotated`.  The first call in a run moves
the current logs to their backup slots and counts one performed rotation; all
later calls do nothing. -/
def rotate_logs (logFile kmsgFile : String) (st : PState) : PState :=
  if st.logsRotated then st
  else
    { st with
        fs := moveFile (moveFile st.fs logFile (logFile ++ ".1")) kmsgFile (kmsgFile ++ ".1"),
        logsRotated := true,
        rotations := st.rotations + 1 }

/-- `logsave`: the pmsg record callback.  Compares the record's bytes with the
stored content at the destination; if equal, returns `len` and does nothing;
otherwise calls `rotate_logs`, sets `rotated`, and returns the boolean result
of `WriteStringToFile` widened to `ssize_t` (1 on success, 0 on failure). -/
def logsave (st : PState) (filename : String) (buf : List Nat) : Int × PState :=
  if buf = readContent st.fs (destPath filename) then
    ((buf.length : Int), st)
  else
    (if (writeStringToFile (rotate_logs LAST_LOG_FILE LAST_KMSG_FILE st).fs
          st.writeOk (destPath filename) buf).1 then (1 : Int) else 0,
     { rotate_logs LAST_LOG_FILE LAST_KMSG_FILE st with
         fs := (writeStringToFile (rotate_logs LAST_LOG_FILE LAST_KMSG_FILE st).fs
            st.writeOk (destPath filename) buf).2,
         rotated := true })

/-- One record delivered by `__android_log_pmsg_file_read`. -/
structure LogRecord where
  filename : String
  buf : List Nat

/-- Sequential delivery of all records to `logsave`. -/
def runRecords : PState → List LogRecord → PState
  | st, [] => st
  | st, r :: rs => runRecords (logsave st r.filename r.buf).2 rs

/-- Number of delivered records whose content differs from the stored content
at their destination at the moment they are delivered. -/
def diffCount : PState → List LogRecord → Nat
  | _, [] => 0
  | st, r :: rs =>
      (if r.buf = readContent st.fs (destPath r.filename) then 0 else 1) +
        diffCount (logsave st r.filename r.buf).2 rs

/-- The comparison buffer size in `compare_file`: `std::array<uint8_t, 1024 * 16>`. -/
def chunkSize : Nat := 1024 * 16

/-- The streaming loop of `compare_file`, embedded faithfully: the source never
decrements `bytes_remain`, so `remain` is passed through unchanged while the
file offsets advance.  Each iteration attempts to read
`min(bytes_remain, 16 KiB)` from both files; `ReadFully` fails when the file's
reads fail or fewer than that many bytes remain past the current offset
(so for nonempty files the loop always ends in a failed read past
end-of-file).  Returns the boolean result and the number of `ReadFully` calls. -/
def compareChunks (f1 f2 : File) (offset remain : Nat) : Bool × Nat :=
  if h : remain = 0 then (true, 0)
  else
    if h1 : f1.readOk = false ∨ f1.content.length < offset + min remain chunkSize then (false, 1)
    else if h2 : f2.readOk = false ∨ f2.content.length < offset + min remain chunkSize then (false, 2)
    else if (f1.content.drop offset).take (min remain chunkSize) ≠
            (f2.content.drop offset).take (min remain chunkSize) then (false, 2)
    else
      ((compareChunks f1 f2 (offset + min remain chunkSize) remain).1,
       (compareChunks f1 f2 (offset + min remain chunkSize) remain).2 + 2)
termination_by f1.content.length - offset
decreasing_by
  have hm : 0 < min remain chunkSize := lt_min (Nat.pos_of_ne_zero h) (by norm_num [chunkSize])
  push_neg at h1
  omega

/-- `compare_file` together with its `ReadFully` call count: returns false if
either file is absent/unreadable, false if the sizes differ (before any read),
otherwise runs the streaming loop. -/
def compare_file_run (fs : FS) (file1 file2 : String) : Bool × Nat :=
  match fs file1, fs file2 with
  | some f1, some f2 =>
      if f1.content.length ≠ f2.content.length then (false, 0)
      else compareChunks f1 f2 0 f1.content.length
  | _, _ => (false, 0)

/-- `compare_file`, the boolean result alone. -/
def compare_file (fs : FS) (file1 file2 : String) : Bool :=
  (compare_file_run fs file1 file2).1

/-- `rotate_last_kmsg`: the console reconciler. -/
def rotate_last_kmsg (st : PState) : PState :=
  if st.rotated then st
  else if !file_exists st.fs LAST_CONSOLE_FILE && !file_exists st.fs ALT_LAST_CONSOLE_FILE then st
  else if !compare_file st.fs LAST_KMSG_FILE LAST_CONSOLE_FILE &&
          !compare_file st.fs LAST_KMSG_FILE ALT_LAST_CONSOLE_FILE then
    { rotate_logs LAST_LOG_FILE LAST_KMSG_FILE st with rotated := true }
  else st

/-- `copy_file`: opens the destination with mode "we" (create/truncate) first;
only then opens the source.  If the destination opens but the source cannot be
opened (or its reads fail), the destination is left truncated to empty. -/
def copy_file (fs : FS) (wOk : String → Bool) (source destination : String) : FS :=
  if wOk destination then
    match fs source with
    | none => setFile fs destination ⟨[], true⟩
    | some f =>
        if f.readOk then setFile fs destination ⟨f.content, true⟩
        else setFile fs destination ⟨[], true⟩
  else fs

/-- The tail of `main` after `rotate_last_kmsg` (lines 232-239): copy a console
source over `last_kmsg`, primary preferred, only if a rotation occurred.
Also reports which source (if any) was copied. -/
def console_copy (st : PState) : PState × Option String :=
  if st.rotated then
    if file_exists st.fs LAST_CONSOLE_FILE then
      ({ st with fs := copy_file st.fs st.writeOk LAST_CONSOLE_FILE LAST_KMSG_FILE },
       some LAST_CONSOLE_FILE)
    else if file_exists st.fs ALT_LAST_CONSOLE_FILE then
      ({ st with fs := copy_file st.fs st.writeOk ALT_LAST_CONSOLE_FILE LAST_KMSG_FILE },
       some ALT_LAST_CONSOLE_FILE)
    else (st, none)
  else (st, none)

/-- `main` from the pmsg-existence check onward (lines 214-241). -/
def main_tail (hasCache : Bool) (records : List LogRecord) (st : PState) : Int × PState :=
  if !file_exists st.fs LAST_PMSG_FILE then (0, st)
  else
    (0,
     (console_copy (rotate_last_kmsg
       (if !hasCache && file_exists (runRecords st records).fs LAST_INSTALL_FILE then
          { runRecords st records with
              fs := removeFile (runRecords st records).fs LAST_INSTALL_FILE }
        else runRecords st records))).1)

/-- `main` (lines 172-241).  `hasCache` abstracts the `/proc/mounts` scan
(excluded glue); `argv1` is the first command-line argument, if any. -/
def main_run (hasCache : Bool) (argv1 : Option String) (records : List LogRecord)
    (st0 : PState) : Int × PState :=
  if hasCache then
    if argv1 = some "--force-persist" then
      main_tail hasCache records
        (if file_exists st0.fs LAST_INSTALL_FILE_IN_CACHE then
           { st0 with fs := removeFile st0.fs LAST_INSTALL_FILE_IN_CACHE }
         else st0)
    else
      (0,
       if file_exists st0.fs LAST_INSTALL_FILE_IN_CACHE then
         { st0 with fs := removeFile st0.fs LAST_INSTALL_FILE_IN_CACHE }
       else st0)
  else main_tail hasCache records st0

/-- Fresh-run state for the C1 witness: empty filesystem, all writes succeed,
both rotation flags false. -/
def c1St : PState := ⟨fun _ => none, fun _ => true, false, false, 0⟩

/-- Two records, both differing from the (absent, hence empty) stored content. -/
def c1Recs : List LogRecord := [⟨"recovery/last_log", [1]⟩, ⟨"recovery/last_install", [2]⟩]

/-- Initial state for the C2 counterexample. -/
def c2St : PState := ⟨fun _ => none, fun _ => true, false, false, 0⟩

/-- State for the C2 witness: the destination of record name `w2` holds `[5]`. -/
def c2wSt : PState :=
  ⟨fun p => if p = destPath "w2" then some ⟨[5], true⟩ else none, fun _ => true, false, false, 0⟩

/-- State for the C3 witness. -/
def c3St : PState := ⟨fun _ => none, fun _ => true, false, false, 0⟩

/-- Failing input for the C4 code bug: `rotated` false, the backup log
`last_kmsg` and the primary console source both readable with identical
nonempty content, the alternate source absent. -/
def c4St : PState :=
  ⟨fun p => if p = LAST_KMSG_FILE then some ⟨[1], true⟩
    else if p = LAST_CONSOLE_FILE then some ⟨[1], true⟩ else none,
   fun _ => true, false, false, 0⟩

/-- State for the C5 witness: rotated, primary console source present. -/
def c5St : PState :=
  ⟨fun p => if p = LAST_CONSOLE_FILE then some ⟨[3], true⟩ else none,
   fun _ => true, true, true, 1⟩

/-- Filesystem for the C6 witness: `"a"` exists, `"b"` does not. -/
def c6FS : FS := fun p => if p = "a" then some ⟨[1], true⟩ else none

/-- Filesystem for the C9 witness: destination `"d"` has prior content,
source `"s"` is absent. -/
def c9FS : FS := fun p => if p = "d" then some ⟨[1, 2], true⟩ else none

/-- Filesystem for the C10 counterexample: `"k"` is a readable nonempty file
whose reads succeed. -/
def c10FS : FS := fun p => if p = "k" then some ⟨[3], true⟩ else none

/-- Filesystem for the C10 witness: `"e"` is a readable empty file. -/
def c10eFS : FS := fun p => if p = "e" then some ⟨[], true⟩ else none

theorem compareChunks_zero (f1 f2 : File) (offset : Nat) :
    compareChunks f1 f2 offset 0 = (true, 0) := by
  rw [compareChunks]
  rfl

theorem compareChunks_eq (f1 f2 : File) (offset remain : Nat) (h : remain ≠ 0) :
    compareChunks f1 f2 offset remain =
      if f1.readOk = false ∨ f1.content.length < offset + min remain chunkSize then (false, 1)
      else if f2.readOk = false ∨ f2.content.length < offset + min remain chunkSize then (false, 2)
      else if (f1.content.drop offset).take (min remain chunkSize) ≠
              (f2.content.drop offset).take (min remain chunkSize) then (false, 2)
      else
        ((compareChunks f1 f2 (offset + min remain chunkSize) remain).1,
         (compareChunks f1 f2 (offset + min remain chunkSize) remain).2 + 2) := by
  conv_lhs => rw [compareChunks]
  simp only [dif_neg h, dite_eq_ite]

theorem compareChunks_pos_false_aux (f1 f2 : File) :
    ∀ n offset remain, f1.content.length - offset ≤ n → remain ≠ 0 →
      (compareChunks f1 f2 offset remain).1 = false := by
  intro n
  induction n with
  | zero =>
    intro offset remain hle h
    rw [compareChunks_eq f1 f2 offset remain h]
    have hm : 0 < min remain chunkSize := lt_min (Nat.pos_of_ne_zero h) (by norm_num [chunkSize])
    rw [if_pos (Or.inr (by omega))]
  | succ n ih =>
    intro offset remain hle h
    rw [compareChunks_eq f1 f2 offset remain h]
    have hm : 0 < min remain chunkSize := lt_min (Nat.pos_of_ne_zero h) (by norm_num [chunkSize])
    by_cases h1 : f1.readOk = false ∨ f1.content.length < offset + min remain chunkSize
    · rw [if_pos h1]
    · rw [if_neg h1]
      by_cases h2 : f2.readOk = false ∨ f2.content.length < offset + min remain chunkSize
      · rw [if_pos h2]
      · rw [if_neg h2]
        by_cases hc : (f1.content.drop offset).take (min remain chunkSize) ≠
            (f2.content.drop offset).take (min remain chunkSize)
        · rw [if_pos hc]
        · rw [if_neg hc]
          push_neg at h1
          exact ih (offset + min remain chunkSize) remain (by omega) h

/-- For any nonzero `bytes_remain` the loop can never return true: it either
fails a read, fails the chunk comparison, or recurses with the same nonzero
`bytes_remain` until a read past end-of-file fails. -/
theorem compareChunks_pos_false (f1 f2 : File) (offset remain : Nat) (h : remain ≠ 0) :
    (compareChunks f1 f2 offset remain).1 = false :=
  compareChunks_pos_false_aux f1 f2 (f1.content.length - offset) offset remain le_rfl h

theorem compare_file_none_left (fs : FS) (p1 p2 : String) (h : fs p1 = none) :
    compare_file fs p1 p2 = false := by
  unfold compare_file compare_file_run
  rw [h]

theorem compare_file_none_right (fs : FS) (p1 p2 : String) (h : fs p2 = none) :
    compare_file fs p1 p2 = false := by
  unfold compare_file compare_file_run
  cases hp1 : fs p1 <;> rw [h]

theorem compare_file_some (fs : FS) (p1 p2 : String) (f1 f2 : File)
    (h1 : fs p1 = some f1) (h2 : fs p2 = some f2) :
    compare_file_run fs p1 p2 =
      if f1.content.length ≠ f2.content.length then (false, 0)
      else compareChunks f1 f2 0 f1.content.length := by
  unfold compare_file_run
  rw [h1, h2]

theorem rotate_logs_guarded (logFile kmsgFile : String) (st : PState)
    (h : st.logsRotated = true) :
    rotate_logs logFile kmsgFile st = st := by
  unfold rotate_logs
  rw [h]
  simp

theorem rotate_logs_fires (logFile kmsgFile : String) (st : PState)
    (h : st.logsRotated = false) :
    rotate_logs logFile kmsgFile st =
      { st with
          fs := moveFile (moveFile st.fs logFile (logFile ++ ".1"))
            kmsgFile (kmsgFile ++ ".1"),
          logsRotated := true,
          rotations := st.rotations + 1 } := by
  unfold rotate_logs
  rw [h]
  simp

theorem logsave_noop (st : PState) (f : String) (b : List Nat)
    (h : b = readContent st.fs (destPath f)) :
    logsave st f b = ((b.length : Int), st) := by
  rw [logsave, if_pos h]

theorem logsave_changed (st : PState) (f : String) (b : List Nat)
    (h : b ≠ readContent st.fs (destPath f)) :
    logsave st f b =
      (if st.writeOk (destPath f) then (1 : Int) else 0,
       { rotate_logs LAST_LOG_FILE LAST_KMSG_FILE st with
           fs := (writeStringToFile (rotate_logs LAST_LOG_FILE LAST_KMSG_FILE st).fs
              st.writeOk (destPath f) b).2,
           rotated := true }) := by
  rw [logsave, if_neg h]
  by_cases hw : st.writeOk (destPath f) = true <;>
    simp [writeStringToFile, hw]

theorem runRecords_guarded (recs : List LogRecord) :
    ∀ st : PState, st.logsRotated = true →
      (runRecords st recs).rotations = st.rotations ∧
      (runRecords st recs).logsRotated = true := by
  induction recs with
  | nil =>
    intro st h
    exact ⟨rfl, h⟩
  | cons r rs ih =>
    intro st h
    simp only [runRecords]
    by_cases hc : r.buf = readContent st.fs (destPath r.filename)
    · rw [logsave_noop st r.filename r.buf hc]
      exact ih st h
    · rw [logsave_changed st r.filename r.buf hc]
      dsimp only
      rw [rotate_logs_guarded LAST_LOG_FILE LAST_KMSG_FILE st h]
      exact ih _ h

theorem runRecords_first_rotation (recs : List LogRecord) :
    ∀ st : PState, st.logsRotated = false →
      (runRecords st recs).rotations =
        st.rotations + (if diffCount st recs = 0 then 0 else 1) := by
  induction recs with
  | nil =>
    intro st h
    simp [runRecords, diffCount]
  | cons r rs ih =>
    intro st h
    simp only [runRecords, diffCount]
    by_cases hc : r.buf = readContent st.fs (destPath r.filename)
    · have h0 : (if r.buf = readContent st.fs (destPath r.filename) then (0 : Nat) else 1) = 0 :=
        if_pos hc
      simp only [logsave_noop st r.filename r.buf hc, h0, Nat.zero_add]
      exact ih st h
    · have h1 : (if r.buf = readContent st.fs (destPath r.filename) then (0 : Nat) else 1) = 1 :=
        if_neg hc
      simp only [logsave_changed st r.filename r.buf hc, h1]
      rw [if_neg (by omega)]
      rw [rotate_logs_fires LAST_LOG_FILE LAST_KMSG_FILE st h]
      rw [(runRecords_guarded rs _ rfl).1]

theorem main_tail_fst (hasCache : Bool) (records : List LogRecord) (st : PState) :
    (main_tail hasCache records st).1 = 0 := by
  unfold main_tail
  split <;> rfl

/-- Claim C1: in a fresh process run (the rotation primitive's internal guard
not yet tripped), if at least one delivered record differs from its stored
content, exactly one rotation is performed over the whole record pass,
regardless of how many records differ: `rotate_logs` is invoked once per
differing record but every invocation after the first is a no-op. -/
theorem C1_single_rotation (st : PState) (recs : List LogRecord)
    (hg : st.logsRotated = false) (hM : 1 ≤ diffCount st recs) :
    (runRecords st recs).rotations = st.rotations + 1 := by
  rw [runRecords_first_rotation recs st hg, if_neg (by omega)]

/-- Witness for C1: two differing records in a fresh run still produce exactly
one rotation. -/
theorem C1_single_rotation_witness :
    c1St.logsRotated = false ∧ 1 ≤ diffCount c1St c1Recs ∧
    (runRecords c1St c1Recs).rotations = c1St.rotations + 1 :=
  ⟨rfl, by decide, C1_single_rotation c1St c1Recs rfl (by decide)⟩

/-- Claim C2, as stated, is false: a differing two-byte record is successfully
written, yet `logsave` returns 1 (the boolean `WriteStringToFile` result
widened to `ssize_t`), which is neither the number of bytes written (2) nor a
negative sentinel. -/
theorem C2_counterexample :
    (logsave c2St "recovery/last_log" [7, 8]).1 = 1 ∧
    ([7, 8] : List Nat).length = 2 ∧
    readContent c2St.fs (destPath "recovery/last_log") = [] ∧
    c2St.writeOk (destPath "recovery/last_log") = true := by
  refine ⟨by decide, by decide, by decide, by decide⟩

/-- Claim C2 (amended): on the no-op path `logsave` returns `length(content)`;
on the changed path it overwrites the destination with the new content and
returns the boolean write result widened to an integer — 1 on success, 0 on
failure — not the byte count and never negative. -/
theorem C2_amended_return_contract (st : PState) (f : String) (b : List Nat) :
    (b = readContent st.fs (destPath f) → (logsave st f b).1 = (b.length : Int)) ∧
    (b ≠ readContent st.fs (destPath f) →
      (logsave st f b).1 = (if st.writeOk (destPath f) then (1 : Int) else 0) ∧
      (st.writeOk (destPath f) = true →
        (logsave st f b).2.fs (destPath f) = some ⟨b, true⟩)) := by
  constructor
  · intro h
    rw [logsave_noop st f b h]
  · intro h
    rw [logsave_changed st f b h]
    refine ⟨rfl, ?_⟩
    intro hw
    simp [writeStringToFile, hw, setFile]

/-- Witness for C2 (amended) at a concrete differing record: the return value
is the widened write result. -/
theorem C2_amended_return_contract_witness :
    (logsave c2wSt "w2" [9]).1 = (if c2wSt.writeOk (destPath "w2") then (1 : Int) else 0) :=
  ((C2_amended_return_contract c2wSt "w2" [9]).2 (by decide)).1

/-- Claim C3: when the record's content byte-equals the stored content at the
destination (a missing destination reading as empty content, not an error),
`logsave` returns `length(content)` and leaves the entire process state —
filesystem, rotation flags, rotation count — unchanged. -/
theorem C3_noop_on_equal_content (st : PState) (f : String) (b : List Nat) :
    (b = readContent st.fs (destPath f) → logsave st f b = ((b.length : Int), st)) ∧
    (st.fs (destPath f) = none → readContent st.fs (destPath f) = []) := by
  constructor
  · exact logsave_noop st f b
  · intro h
    unfold readContent
    rw [h]

/-- Witness for C3: an empty record against an absent destination is a no-op
returning 0. -/
theorem C3_noop_on_equal_content_witness :
    logsave c3St "recovery/last_log" [] = ((0 : Int), c3St) :=
  (C3_noop_on_equal_content c3St "recovery/last_log" []).1 (by decide)

/-- Claim C4 is false of the program (code bug): with `rotated` false, the
primary console source present and byte-equal to the nonempty backup log
`last_kmsg`, the reconciler still rotates — `compare_file` reports byte-equal
nonempty files as unequal because `bytes_remain` is never decremented and the
re-read at end-of-file fails.  This contradicts the claim's "rotates iff the
backup log byte-differs from both sources" and the spec's scenario
"alternate present and matches existing backup log exactly ⇒ no rotation". -/
theorem C4_code_bug_evaluation :
    c4St.rotated = false ∧
    c4St.fs LAST_KMSG_FILE = some ⟨[1], true⟩ ∧
    c4St.fs LAST_CONSOLE_FILE = some ⟨[1], true⟩ ∧
    (rotate_last_kmsg c4St).rotated = true ∧
    (rotate_last_kmsg c4St).rotations = c4St.rotations + 1 := by
  have hc1 : compare_file c4St.fs LAST_KMSG_FILE LAST_CONSOLE_FILE = false := by
    rw [compare_file, compare_file_some c4St.fs LAST_KMSG_FILE LAST_CONSOLE_FILE
      ⟨[1], true⟩ ⟨[1], true⟩ rfl rfl, if_neg (not_not_intro rfl)]
    exact compareChunks_pos_false ⟨[1], true⟩ ⟨[1], true⟩ 0 _ (by decide)
  have hc2 : compare_file c4St.fs LAST_KMSG_FILE ALT_LAST_CONSOLE_FILE = false :=
    compare_file_none_right c4St.fs LAST_KMSG_FILE ALT_LAST_CONSOLE_FILE rfl
  refine ⟨rfl, rfl, rfl, ?_, ?_⟩
  · unfold rotate_last_kmsg
    rw [hc1, hc2]
    rfl
  · unfold rotate_last_kmsg
    rw [hc1, hc2]
    rfl

/-- Claim C5: after the reconciler, a console source is copied over `last_kmsg`
if and only if `rotated` is true and at least one console source exists; the
primary source is preferred when it exists; and the copy is an unconditional
overwrite — the destination ends up holding the source's content with no
hypothesis on the prior destination content. -/
theorem C5_console_copy_behavior (st : PState) :
    ((console_copy st).2 ≠ none ↔
      st.rotated = true ∧ (file_exists st.fs LAST_CONSOLE_FILE = true ∨
        file_exists st.fs ALT_LAST_CONSOLE_FILE = true)) ∧
    (st.rotated = true → file_exists st.fs LAST_CONSOLE_FILE = true →
      (console_copy st).2 = some LAST_CONSOLE_FILE) ∧
    (∀ f, st.rotated = true → st.fs LAST_CONSOLE_FILE = some f → f.readOk = true →
      st.writeOk LAST_KMSG_FILE = true →
      (console_copy st).1.fs LAST_KMSG_FILE = some ⟨f.content, true⟩) := by
  refine ⟨?_, ?_, ?_⟩
  · cases hr : st.rotated <;>
      cases he1 : file_exists st.fs LAST_CONSOLE_FILE <;>
      cases he2 : file_exists st.fs ALT_LAST_CONSOLE_FILE <;>
      simp [console_copy, hr, he1, he2]
  · intro hr he1
    unfold console_copy
    rw [hr, he1]
    simp
  · intro f hr hp hro hw
    have he1 : file_exists st.fs LAST_CONSOLE_FILE = true := by
      rw [file_exists, hp]; rfl
    unfold console_copy
    rw [hr, he1]
    simp only [if_true]
    simp [copy_file, hp, hro, hw, setFile]

/-- Witness for C5: with `rotated` true and the primary console source present,
the primary source is the one copied. -/
theorem C5_console_copy_behavior_witness :
    (console_copy c5St).2 = some LAST_CONSOLE_FILE :=
  (C5_console_copy_behavior c5St).2.1 rfl (by decide)

/-- Claim C6: `compare_file` returns false if either path is absent/unreadable;
on a size mismatch it returns false having performed zero reads; any read
failure during streaming yields false (fail closed); it returns true only when
the files' contents are byte-equal over their entire length; and the streaming
chunk is fixed at 16 KiB. -/
theorem C6_compare_file_contract (fs : FS) (p1 p2 : String) :
    ((fs p1 = none ∨ fs p2 = none) → compare_file fs p1 p2 = false) ∧
    (file_size fs p1 ≠ file_size fs p2 →
      compare_file fs p1 p2 = false ∧ (compare_file_run fs p1 p2).2 = 0) ∧
    (∀ f1 f2, fs p1 = some f1 → fs p2 = some f2 →
      f1.content.length = f2.content.length → f1.content ≠ [] →
      (f1.readOk = false ∨ f2.readOk = false) → compare_file fs p1 p2 = false) ∧
    (compare_file fs p1 p2 = true →
      ∃ f1 f2, fs p1 = some f1 ∧ fs p2 = some f2 ∧ f1.content = f2.content) ∧
    chunkSize = 1024 * 16 := by
  refine ⟨?_, ?_, ?_, ?_, rfl⟩
  · intro h
    rcases h with h | h
    · exact compare_file_none_left fs p1 p2 h
    · exact compare_file_none_right fs p1 p2 h
  · intro hsz
    cases hp1 : fs p1 with
    | none =>
      refine ⟨compare_file_none_left fs p1 p2 hp1, ?_⟩
      unfold compare_file_run
      rw [hp1]
    | some f1 =>
      cases hp2 : fs p2 with
      | none =>
        refine ⟨compare_file_none_right fs p1 p2 hp2, ?_⟩
        unfold compare_file_run
        rw [hp1, hp2]
      | some f2 =>
        rw [file_size, file_size, hp1, hp2] at hsz
        rw [compare_file, compare_file_some fs p1 p2 f1 f2 hp1 hp2, if_pos hsz]
        exact ⟨rfl, rfl⟩
  · intro f1 f2 hp1 hp2 hlen hne _
    rw [compare_file, compare_file_some fs p1 p2 f1 f2 hp1 hp2, if_neg (not_not_intro hlen)]
    exact compareChunks_pos_false f1 f2 0 _ (fun hh => hne (List.length_eq_zero.mp hh))
  · intro ht
    cases hp1 : fs p1 with
    | none => rw [compare_file_none_left fs p1 p2 hp1] at ht; exact absurd ht (by simp)
    | some f1 =>
      cases hp2 : fs p2 with
      | none => rw [compare_file_none_right fs p1 p2 hp2] at ht; exact absurd ht (by simp)
      | some f2 =>
        rw [compare_file, compare_file_some fs p1 p2 f1 f2 hp1 hp2] at ht
        by_cases hl : f1.content.length = f2.content.length
        · rw [if_neg (not_not_intro hl)] at ht
          by_cases hz : f1.content.length = 0
          · have h1 : f1.content = [] := List.length_eq_zero.mp hz
            have h2 : f2.content = [] := List.length_eq_zero.mp (hl ▸ hz)
            exact ⟨f1, f2, rfl, rfl, h1.trans h2.symm⟩
          · rw [compareChunks_pos_false f1 f2 0 f1.content.length hz] at ht
            exact absurd ht (by simp)
        · rw [if_pos hl] at ht
          exact absurd ht (by simp)

/-- Witness for C6: comparison against an absent path is false. -/
theorem C6_compare_file_contract_witness : compare_file c6FS "a" "b" = false :=
  (C6_compare_file_contract c6FS "a" "b").1 (Or.inr rfl)

/-- Claim C7: `compare_file` is symmetric in its two path arguments for every
filesystem state. -/
theorem C7_compare_file_symm (fs : FS) (p1 p2 : String) :
    compare_file fs p1 p2 = compare_file fs p2 p1 := by
  cases hp1 : fs p1 with
  | none =>
    rw [compare_file_none_left fs p1 p2 hp1, compare_file_none_right fs p2 p1 hp1]
  | some f1 =>
    cases hp2 : fs p2 with
    | none =>
      rw [compare_file_none_right fs p1 p2 hp2, compare_file_none_left fs p2 p1 hp2]
    | some f2 =>
      rw [compare_file, compare_file, compare_file_some fs p1 p2 f1 f2 hp1 hp2,
        compare_file_some fs p2 p1 f2 f1 hp2 hp1]
      by_cases hl : f1.content.length = f2.content.length
      · rw [if_neg (not_not_intro hl), if_neg (not_not_intro hl.symm)]
        by_cases hz : f1.content.length = 0
        · have hz2 : f2.content.length = 0 := hl ▸ hz
          rw [hz, hz2, compareChunks_zero, compareChunks_zero]
        · have hz2 : f2.content.length ≠ 0 := fun hh => hz (hl.trans hh)
          rw [compareChunks_pos_false f1 f2 0 f1.content.length hz,
            compareChunks_pos_false f2 f1 0 f2.content.length hz2]
      · rw [if_pos hl, if_pos (Ne.symm hl)]

/-- Claim C8: `main` returns exit code 0 on every execution path, for every
mount state, argument vector, record sequence, and filesystem. -/
theorem C8_exit_code_zero (hasCache : Bool) (argv1 : Option String)
    (records : List LogRecord) (st0 : PState) :
    (main_run hasCache argv1 records st0).1 = 0 := by
  unfold main_run
  split
  · split
    · exact main_tail_fst _ _ _
    · rfl
  · exact main_tail_fst _ _ _

/-- Claim C9: `copy_file` truncates the destination before opening the source,
so when the destination is writable but the source cannot be opened, the
destination is left as an empty file — its previous content is destroyed. -/
theorem C9_copy_file_truncates (fs : FS) (wOk : String → Bool) (src dst : String)
    (hw : wOk dst = true) (hs : fs src = none) :
    copy_file fs wOk src dst dst = some ⟨[], true⟩ := by
  unfold copy_file
  rw [hw, hs]
  simp [setFile]

/-- Witness for C9: destination `"d"` held `[1, 2]` but is emptied when the
source `"s"` is absent. -/
theorem C9_copy_file_truncates_witness :
    copy_file c9FS (fun _ => true) "s" "d" "d" = some ⟨[], true⟩ :=
  C9_copy_file_truncates c9FS (fun _ => true) "s" "d" rfl rfl

/-- Claim C10, as stated, is false: `"k"` is a readable one-byte file whose
reads succeed, yet `compare_file` applied to it and itself returns false —
`bytes_remain` is never decremented, so the re-read at end-of-file fails. -/
theorem C10_counterexample :
    c10FS "k" = some ⟨[3], true⟩ ∧ compare_file c10FS "k" "k" = false := by
  refine ⟨rfl, ?_⟩
  rw [compare_file, compare_file_some c10FS "k" "k" ⟨[3], true⟩ ⟨[3], true⟩ rfl rfl,
    if_neg (not_not_intro rfl)]
  exact compareChunks_pos_false ⟨[3], true⟩ ⟨[3], true⟩ 0 _ (by decide)

/-- Claim C10 (amended): `compare_file(A, A)` returns true if and only if `A`
exists and is empty; for nonempty `A` — even readable with succeeding reads —
the loop never decrements `bytes_remain`, so the re-read at end-of-file fails
and the comparison returns false; and it returns false when `A` does not exist
or is unreadable. -/
theorem C10_compare_file_refl_amended (fs : FS) (p : String) :
    (compare_file fs p p = true ↔ ∃ f, fs p = some f ∧ f.content = []) ∧
    (fs p = none → compare_file fs p p = false) := by
  constructor
  · constructor
    · intro ht
      cases hp : fs p with
      | none => rw [compare_file_none_left fs p p hp] at ht; exact absurd ht (by simp)
      | some f =>
        rw [compare_file, compare_file_some fs p p f f hp hp,
          if_neg (not_not_intro rfl)] at ht
        by_cases hz : f.content.length = 0
        · exact ⟨f, rfl, List.length_eq_zero.mp hz⟩
        · rw [compareChunks_pos_false f f 0 f.content.length hz] at ht
          exact absurd ht (by simp)
    · rintro ⟨f, hp, hc⟩
      rw [compare_file, compare_file_some fs p p f f hp hp,
        if_neg (not_not_intro rfl), hc]
      simp [compareChunks_zero]
  · intro hp
    exact compare_file_none_left fs p p hp

/-- Witness for C10 (amended): a readable empty file compares equal to itself. -/
theorem C10_compare_file_refl_amended_witness : compare_file c10eFS "e" "e" = true :=
  ((C10_compare_file_refl_amended c10eFS "e").1).mpr ⟨⟨[], true⟩, rfl, rfl⟩

end RecoveryPersist
